import Mathlib

/-
Shallow embedding of the django-subdomains core (LeeHanYeong fork).

The repository ships its test suite (subdomains/tests/tests.py), URL fixtures
(subdomains/tests/urls/*.py, tests/urls/*.py) and settings under src/, while the
library modules themselves (subdomains/middleware.py, subdomains/utils.py) are
not present.  The definitions below therefore model the middleware and the
reverse utilities from the specification, with every behaviour that the
in-repository test suite pins down taken from those tests: the test suite fixes
the semantics of REMOVE_WWW_FROM_DOMAIN (it removes a leading "www." from the
configured site domain before matching, and never rewrites the extracted
label), of urljoin (no default "/" path), of reverse (dictionary lookup with
fallback to ROOT_URLCONF, no urlconf keyword parameter), and of the routing
middleware (urlconf override only when the subdomain has a registry entry).

Strings are modelled as Lean Strings; the helpers below work on the underlying
character lists so that every definition evaluates by kernel reduction.
-/

namespace Subdomains

/-- Lower-case every character of a string (models Python str.lower on the
hostnames and domains handled here). -/
def lowerStr (s : String) : String := ⟨s.data.map Char.toLower⟩

/-- Does `s` end with `t`?  (List-based so that it kernel-reduces.) -/
def strEnds (s t : String) : Bool :=
  s.data.drop (s.data.length - t.data.length) == t.data

/-- Does `s` start with `t`? -/
def strStarts (s t : String) : Bool := s.data.take t.data.length == t.data

/-- Drop the first `n` characters of `s`. -/
def strDrop (s : String) (n : Nat) : String := ⟨s.data.drop n⟩

/-- Drop the last `n` characters of `s`. -/
def strDropRight (s : String) (n : Nat) : String :=
  ⟨s.data.take (s.data.length - n)⟩

/-- Character length of `s`. -/
def strLen (s : String) : Nat := s.data.length

/-- Association-list lookup by string key (models Python dict.get key lookup
for the string-keyed dictionaries used here). -/
def lookupStr {α : Type} (l : List (String × α)) (k : String) : Option α :=
  (l.find? (fun kv => kv.1 == k)).map (fun kv => kv.2)

/-- Association-list lookup keyed by an optional subdomain label (models
SUBDOMAIN_URLCONFS.get(subdomain), whose keys include None). -/
def lookupSub (l : List (Option String × String)) (k : Option String) :
    Option String :=
  (l.find? (fun kv => kv.1 == k)).map (fun kv => kv.2)

/-- Modelled from the spec (subdomains/utils.py is absent from src/):
`get_domain` returns the configured site domain, with a single leading
`"www."` removed when the REMOVE_WWW_FROM_DOMAIN setting is enabled.  The
domain-side (not label-side) stripping is pinned by
SubdomainMiddlewareTestCase.test_www_domain (tests.py lines 95-116). -/
def get_domain (removeWww : Bool) (siteDomain : String) : String :=
  if removeWww && strStarts siteDomain "www." then strDrop siteDomain 4
  else siteDomain

/-- Outcome of the middleware's hostname parse: the subdomain attached to the
request, and whether the mismatched-host warning was emitted. -/
structure ParseOutcome where
  subdomain : Option String
  warned : Bool
deriving DecidableEq

/-- Match a (lower-cased) host against a (lower-cased) effective domain, as
the middleware's anchored pattern does: the whole host equal to the domain
gives no subdomain; a host of the shape `label "." domain` gives that label;
anything else is no match. -/
def matchHost (h d : String) : Option (Option String) :=
  if h = d then some none
  else if strEnds h ("." ++ d) then some (some (strDropRight h (strLen d + 1)))
  else none

/-- Modelled from the spec (subdomains/middleware.py is absent from src/):
the subdomain-extraction step of the middleware.  It lower-cases the host and
the effective domain, matches the host against the domain, attaches the
extracted label (none for the bare domain), and on a host that does not end in
the domain on a label boundary attaches none and emits a recoverable warning.
Pinned by SubdomainMiddlewareTestCase (tests.py lines 69-127). -/
def process_request_subdomain (removeWww : Bool) (siteDomain : String)
    (host : String) : ParseOutcome :=
  match matchHost (lowerStr host) (lowerStr (get_domain removeWww siteDomain)) with
  | some sub => ⟨sub, false⟩
  | none => ⟨none, true⟩

/-- Immutable configuration read by the middleware and the reverse helper:
site domain, REMOVE_WWW_FROM_DOMAIN, DEFAULT_URL_SCHEME, SUBDOMAIN_URLCONFS
and ROOT_URLCONF. -/
structure Config where
  siteDomain : String
  removeWww : Bool
  defaultScheme : String
  subdomainUrlconfs : List (Option String × String)
  rootUrlconf : String

/-- Modelled from the spec (subdomains/middleware.py is absent from src/):
the routing step of SubdomainURLRoutingMiddleware.  It looks the extracted
subdomain up in SUBDOMAIN_URLCONFS and attaches the resulting urlconf override
to the request only when the lookup succeeds; an unregistered subdomain leaves
the request without an override (falling through to ROOT_URLCONF) and is not
an error.  Pinned by SubdomainURLRoutingTestCase.test_url_routing. -/
def process_request_urlconf (cfg : Config) (host : String) : Option String :=
  lookupSub cfg.subdomainUrlconfs
    (process_request_subdomain cfg.removeWww cfg.siteDomain host).subdomain

/-- Resolve a route name to a path inside the named urlconf table: the
external dispatch capability, modelled as association lists of named routes.
none models Django's NoReverseMatch. -/
def resolvePath (tables : List (String × List (String × String)))
    (urlconfName viewname : String) : Option String :=
  match lookupStr tables urlconfName with
  | some routes => lookupStr routes viewname
  | none => none

/-- Modelled from the spec: Django's reverse capability, as used by this
repository.  An explicitly supplied urlconf wins; otherwise the
thread-active urlconf (set elsewhere in process state) applies; otherwise
ROOT_URLCONF. -/
def djangoReverse (tables : List (String × List (String × String)))
    (rootUrlconf : String) (activeUrlconf : Option String)
    (urlconf : Option String) (viewname : String) : Option String :=
  let effective :=
    match urlconf with
    | some u => u
    | none =>
      match activeUrlconf with
      | some a => a
      | none => rootUrlconf
  resolvePath tables effective viewname

/-- Modelled from the spec (subdomains/utils.py is absent from src/):
`urljoin(domain, path=None, scheme=None)` returns
`scheme ++ "://" ++ domain ++ (path or "")`; an absent or empty path
contributes nothing (no default "/"), and an absent scheme falls back to the
DEFAULT_URL_SCHEME setting.  Pinned by
SubdomainURLReverseTestCase.test_url_join (tests.py lines 171-178). -/
def urljoin (domain : String) (path : Option String) (scheme : Option String)
    (defaultScheme : String) : String :=
  (match scheme with | some s => s | none => defaultScheme) ++ "://" ++ domain
    ++ (match path with | some p => p | none => "")

/-- Host built by reverse for a given subdomain argument: the label prefixed
to the effective domain when present, the bare effective domain otherwise. -/
def hostFor (cfg : Config) (subdomain : Option String) : String :=
  match subdomain with
  | some s => s ++ "." ++ get_domain cfg.removeWww cfg.siteDomain
  | none => get_domain cfg.removeWww cfg.siteDomain

/-- Modelled from the spec (subdomains/utils.py is absent from src/):
`reverse(viewname, subdomain=None, scheme=None, ...)`.  The urlconf is
`SUBDOMAIN_URLCONFS.get(subdomain, ROOT_URLCONF)` — a dictionary lookup whose
fallback for unregistered labels is ROOT_URLCONF, not a failure — the host is
built from the subdomain argument and the effective domain, the path is
resolved by the external reverse capability against that explicit urlconf
(never against the thread-active one), and the parts are joined by `urljoin`.
none models a NoReverseMatch escaping to the caller.  Pinned by
SubdomainURLReverseTestCase (tests.py lines 180-214). -/
def reverse (cfg : Config) (tables : List (String × List (String × String)))
    (activeUrlconf : Option String) (viewname : String)
    (subdomain : Option String) (scheme : Option String) : Option String :=
  let urlconf :=
    match lookupSub cfg.subdomainUrlconfs subdomain with
    | some u => u
    | none => cfg.rootUrlconf
  (djangoReverse tables cfg.rootUrlconf activeUrlconf (some urlconf)
      viewname).map
    (fun path => urljoin (hostFor cfg subdomain) (some path) scheme
      cfg.defaultScheme)

/-- Result of a Python-level call to `subdomains.utils.reverse`: a call with a
keyword argument not in the function's parameter list raises TypeError before
the body runs. -/
inductive PyCallResult where
  | typeError
  | noReverseMatch
  | ok (url : String)
deriving DecidableEq

/-- The keyword parameters accepted by `subdomains.utils.reverse`
(viewname is positional; there is no urlconf parameter).  Pinned by
SubdomainURLReverseTestCase.test_reverse_invalid_urlconf_argument. -/
def reverseKwargNames : List String :=
  ["subdomain", "scheme", "args", "kwargs", "current_app"]

/-- Modelled from the spec (subdomains/utils.py is absent from src/): calling
`reverse` with keyword arguments.  An unexpected keyword raises TypeError
(Python call semantics); otherwise the call runs `reverse` with the supplied
subdomain and scheme. -/
def callReverse (cfg : Config)
    (tables : List (String × List (String × String)))
    (activeUrlconf : Option String) (viewname : String)
    (kwargs : List (String × String)) : PyCallResult :=
  if kwargs.all (fun kv => reverseKwargNames.contains kv.1) then
    match reverse cfg tables activeUrlconf viewname
        (lookupStr kwargs "subdomain") (lookupStr kwargs "scheme") with
    | some url => .ok url
    | none => .noReverseMatch
  else .typeError

/-- Full dotted path of a test urlconf module (SubdomainTestMixin
get_path_to_urlconf). -/
def urlModule (name : String) : String := "subdomains.tests.urls." ++ name

/-- Routes of subdomains/tests/urls/default.py: home at "/" and example at
"/example/". -/
def defaultRoutes : List (String × String) :=
  [("home", "/"), ("example", "/example/")]

/-- Modelled from the spec (subdomains/tests/urls/marketing.py is absent from
src/): the marketing table answers the None and "www" registry entries; per
the spec's reverse examples it resolves "home" at "/" and owns no "view"
route, matching the default patterns. -/
def marketingRoutes : List (String × String) := defaultRoutes

/-- Routes of subdomains/tests/urls/api.py: the default patterns plus home at
"/" and view at "/view/". -/
def apiRoutes : List (String × String) :=
  defaultRoutes ++ [("home", "/"), ("view", "/view/")]

/-- Modelled from the spec (subdomains/tests/urls/application.py is absent
from src/, its mirror tests/urls/application.py is present): the default
patterns plus view at "/view/" and application at "/application/". -/
def applicationRoutes : List (String × String) :=
  defaultRoutes ++ [("view", "/view/"), ("application", "/application/")]

/-- The urlconf tables visible to the test suite. -/
def testTables : List (String × List (String × String)) :=
  [(urlModule "marketing", marketingRoutes),
   (urlModule "api", apiRoutes),
   (urlModule "application", applicationRoutes)]

/-- The configuration installed by SubdomainTestMixin.run (tests.py lines
32-47): domain example.com, DEFAULT_URL_SCHEME http, ROOT_URLCONF the
application module, SUBDOMAIN_URLCONFS mapping None and "www" to marketing
and "api" to api; REMOVE_WWW_FROM_DOMAIN is left at its default (false). -/
def testConfig : Config :=
  ⟨"example.com", false, "http",
   [(none, urlModule "marketing"),
    (some "api", urlModule "api"),
    (some "www", urlModule "marketing")],
   urlModule "application"⟩

end Subdomains

namespace Subdomains

/-- Validation: the model reproduces every assertion of
SubdomainMiddlewareTestCase (tests.py lines 69-127). -/
theorem modelCheck_middleware_tests :
    (process_request_subdomain false "example.com" "example.com").subdomain = none ∧
    (process_request_subdomain false "example.com" "www.example.com").subdomain = some "www" ∧
    (process_request_subdomain false "example.com" "www.subdomain.example.com").subdomain = some "www.subdomain" ∧
    (process_request_subdomain false "example.com" "subdomain.example.com").subdomain = some "subdomain" ∧
    (process_request_subdomain false "example.com" "another.subdomain.example.com").subdomain = some "another.subdomain" ∧
    process_request_subdomain false "www.example.com" "www.example.com" = ⟨none, false⟩ ∧
    process_request_subdomain false "www.example.com" "www.subdomain.example.com" = ⟨none, true⟩ ∧
    process_request_subdomain false "www.example.com" "subdomain.example.com" = ⟨none, true⟩ ∧
    (process_request_subdomain false "www.example.com" "subdomain.www.example.com").subdomain = some "subdomain" ∧
    (process_request_subdomain false "www.example.com" "www.subdomain.www.example.com").subdomain = some "www.subdomain" ∧
    (process_request_subdomain true "www.example.com" "www.example.com").subdomain = some "www" ∧
    (process_request_subdomain true "www.example.com" "subdomain.example.com").subdomain = some "subdomain" ∧
    (process_request_subdomain true "www.example.com" "subdomain.www.example.com").subdomain = some "subdomain.www" ∧
    (process_request_subdomain false "example.com" "WWW.example.com").subdomain = some "www" ∧
    (process_request_subdomain false "example.com" "www.EXAMPLE.COM").subdomain = some "www" := by
  decide

/-- Validation: the model reproduces every assertion of
SubdomainURLRoutingTestCase.test_url_routing and of
SubdomainURLReverseTestCase (tests.py lines 131-146 and 171-214). -/
theorem modelCheck_routing_and_reverse_tests :
    process_request_urlconf testConfig "example.com" = some (urlModule "marketing") ∧
    process_request_urlconf testConfig "www.example.com" = some (urlModule "marketing") ∧
    process_request_urlconf testConfig "api.example.com" = some (urlModule "api") ∧
    process_request_urlconf testConfig "subdomain.example.com" = none ∧
    urljoin "example.com" none none "http" = "http://example.com" ∧
    urljoin "example.com" none (some "https") "http" = "https://example.com" ∧
    urljoin "example.com" none none "https" = "https://example.com" ∧
    urljoin "example.com" (some "/example/") none "http" = "http://example.com/example/" ∧
    reverse testConfig testTables none "home" none none = some "http://example.com/" ∧
    reverse testConfig testTables none "home" (some "api") none = some "http://api.example.com/" ∧
    reverse testConfig testTables none "view" (some "api") none = some "http://api.example.com/view/" ∧
    reverse testConfig testTables none "home" (some "wildcard") none = some "http://wildcard.example.com/" ∧
    reverse testConfig testTables none "view" (some "wildcard") none = some "http://wildcard.example.com/view/" ∧
    reverse testConfig testTables none "view" none none = none ∧
    callReverse testConfig testTables none "home" [("urlconf", urlModule "marketing")] = PyCallResult.typeError ∧
    reverse testConfig testTables (some (urlModule "api")) "application" (some "wildcard") none
      = some "http://wildcard.example.com/application/" := by
  decide

/-- Validation: the thread-active urlconf is live in the model of Django
reverse when no explicit urlconf is supplied, so independence results about
the subdomains reverse helper are not vacuous. -/
theorem modelCheck_active_urlconf_live :
    djangoReverse testTables (urlModule "application") (some (urlModule "api")) none "application" = none ∧
    djangoReverse testTables (urlModule "application") none none "application" = some "/application/" := by
  decide

/-- Claim C1 counterexample: with the strip-www policy enabled, the hostname
"www.example.com" against base domain "example.com" parses to the subdomain
"www", not to none — the strip-www setting rewrites the configured domain,
never the extracted label (tests.py lines 113-116 pin this behaviour). -/
theorem C1_counterexample :
    (process_request_subdomain true "example.com" "www.example.com").subdomain = some "www" ∧
    (process_request_subdomain true "example.com" "www.example.com").subdomain ≠ none := by
  decide

/-- Claim C1 (amended): the strip-www policy removes a single leading "www."
from the configured base domain before matching and never rewrites the
extracted label; parsing with strip-www enabled equals parsing with it
disabled against the www-stripped domain, and in particular
"www.example.com" parses to "www" against both "example.com" and
"www.example.com". -/
theorem C1_strip_www_targets_domain :
    (∀ h d, process_request_subdomain true d h
      = process_request_subdomain false (get_domain true d) h) ∧
    (process_request_subdomain true "example.com" "www.example.com").subdomain = some "www" ∧
    (process_request_subdomain true "www.example.com" "www.example.com").subdomain = some "www" := by
  exact ⟨fun h d => rfl, by decide, by decide⟩

/-- Claim C2 counterexample: calling reverse with an explicit urlconf keyword
(and no subdomain) fails with TypeError — reverse accepts no urlconf
parameter, so the call fails precisely because a table identifier was passed
(tests.py lines 199-203 assert this TypeError). -/
theorem C2_counterexample :
    callReverse testConfig testTables none "home"
      [("urlconf", urlModule "marketing")] = PyCallResult.typeError := by
  decide

/-- Claim C2 (amended): a reverse call supplying an explicit urlconf keyword
always fails with TypeError, whatever its value; the function has no urlconf
parameter, and table selection happens only through the subdomain argument. -/
theorem C2_urlconf_kwarg_rejected :
    ∀ (cfg : Config) (tables : List (String × List (String × String)))
      (active : Option String) (viewname : String)
      (kwargs : List (String × String)),
      lookupStr kwargs "urlconf" ≠ none →
      callReverse cfg tables active viewname kwargs = PyCallResult.typeError := by
  intro cfg tables active v kwargs hk
  unfold lookupStr at hk
  cases hf : kwargs.find? (fun kv => kv.1 == "urlconf") with
  | none => rw [hf] at hk; simp at hk
  | some kv =>
    have hmem : kv ∈ kwargs := List.mem_of_find?_eq_some hf
    have hpred := List.find?_some hf
    have h1 : kv.1 = "urlconf" := by simpa using hpred
    have hall : kwargs.all (fun kv => reverseKwargNames.contains kv.1) = false := by
      rw [Bool.eq_false_iff]
      intro hT
      have hkv := List.all_eq_true.mp hT kv hmem
      rw [h1] at hkv
      simp [reverseKwargNames] at hkv
    simp only [callReverse, hall]
    rfl

/-- Claim C2 witness: a concrete call carrying an urlconf keyword is rejected
with TypeError. -/
theorem C2_urlconf_kwarg_rejected_witness :
    lookupStr [("urlconf", urlModule "api")] "urlconf" ≠ none ∧
    callReverse testConfig testTables none "home" [("urlconf", urlModule "api")]
      = PyCallResult.typeError :=
  ⟨by decide,
   C2_urlconf_kwarg_rejected testConfig testTables none "home"
     [("urlconf", urlModule "api")] (by decide)⟩

/-- Claim C3 counterexample: a reverse call with the explicit subdomain
"wildcard" — which has no registry entry, and the registry has no wildcard
entry — succeeds with "http://wildcard.example.com/" instead of failing: the
registry lookup falls back to ROOT_URLCONF (tests.py lines 190-194 assert
this success). -/
theorem C3_counterexample :
    reverse testConfig testTables none "home" (some "wildcard") none
      = some "http://wildcard.example.com/" ∧
    reverse testConfig testTables none "home" (some "wildcard") none ≠ none := by
  decide

/-- Claim C3 (amended): a reverse call whose explicit subdomain has no
registry entry resolves the route against ROOT_URLCONF; it fails only when
the route does not resolve in that fallback table, never merely because the
label is unregistered. -/
theorem C3_unregistered_label_falls_back :
    ∀ (cfg : Config) (tables : List (String × List (String × String)))
      (active : Option String) (viewname : String) (sub : Option String)
      (scheme : Option String),
      lookupSub cfg.subdomainUrlconfs sub = none →
      reverse cfg tables active viewname sub scheme
        = (resolvePath tables cfg.rootUrlconf viewname).map
            (fun path => urljoin (hostFor cfg sub) (some path) scheme
              cfg.defaultScheme) := by
  intro cfg tables active v sub sch h
  simp [reverse, djangoReverse, h]

/-- Claim C3 witness: the unregistered subdomain "wildcard" resolves through
ROOT_URLCONF. -/
theorem C3_unregistered_label_falls_back_witness :
    lookupSub testConfig.subdomainUrlconfs (some "wildcard") = none ∧
    reverse testConfig testTables none "home" (some "wildcard") none
      = (resolvePath testTables testConfig.rootUrlconf "home").map
          (fun path => urljoin (hostFor testConfig (some "wildcard"))
            (some path) none testConfig.defaultScheme) :=
  ⟨by decide,
   C3_unregistered_label_falls_back testConfig testTables none "home"
     (some "wildcard") none (by decide)⟩

/-- Claim C4 counterexample: with an absent path, urljoin returns
"http://example.com" — no default "/" is appended (tests.py line 172 asserts
exactly this value). -/
theorem C4_counterexample :
    urljoin "example.com" none none "http" = "http://example.com" ∧
    urljoin "example.com" none none "http" ≠ "http://example.com/" := by
  decide

/-- Claim C4 (amended): for every host and scheme, urljoin with an empty or
absent path returns scheme ++ "://" ++ host with nothing appended (the path
defaults to the empty string, not to "/"). -/
theorem C4_empty_path_appends_nothing :
    ∀ (host : String) (scheme : Option String) (dflt : String),
      urljoin host none scheme dflt = (scheme.getD dflt) ++ "://" ++ host ∧
      urljoin host (some "") scheme dflt = (scheme.getD dflt) ++ "://" ++ host := by
  intro host scheme dflt
  cases scheme <;>
    exact ⟨by simp [urljoin, String.append_empty],
           by simp [urljoin, String.append_empty]⟩

/-- Claim C5: a hostname that neither equals the effective base domain nor
ends with it on a label boundary (case-insensitively) parses to no subdomain
with the recoverable warning emitted; the parse is a total function, so
request handling continues. -/
theorem C5_mismatched_host_degrades :
    ∀ (w : Bool) (siteDomain host : String),
      lowerStr host ≠ lowerStr (get_domain w siteDomain) →
      strEnds (lowerStr host) ("." ++ lowerStr (get_domain w siteDomain)) = false →
      process_request_subdomain w siteDomain host = ⟨none, true⟩ := by
  intro w d h hne hends
  simp [process_request_subdomain, matchHost, hne, hends]

/-- Claim C5 witness: "subdomain.example.com" against the configured domain
"www.example.com" (tests.py line 105) degrades to no subdomain with a
warning. -/
theorem C5_mismatched_host_degrades_witness :
    lowerStr "subdomain.example.com" ≠ lowerStr (get_domain false "www.example.com") ∧
    strEnds (lowerStr "subdomain.example.com")
      ("." ++ lowerStr (get_domain false "www.example.com")) = false ∧
    process_request_subdomain false "www.example.com" "subdomain.example.com"
      = ⟨none, true⟩ :=
  ⟨by decide, by decide,
   C5_mismatched_host_degrades false "www.example.com" "subdomain.example.com"
     (by decide) (by decide)⟩

/-- Claim C6 counterexample: with strip-www enabled,
"www.sub.www.example.com" against "example.com" parses to the whole label
"www.sub.www" — the leading "www." segment of the label is NOT stripped, so
the result is not "sub.www" as the claimed single-strip rule would give. -/
theorem C6_counterexample :
    (process_request_subdomain true "example.com" "www.sub.www.example.com").subdomain
      = some "www.sub.www" ∧
    (process_request_subdomain true "example.com" "www.sub.www.example.com").subdomain
      ≠ some "sub.www" := by
  decide

/-- Claim C6 (amended): the strip-www policy never rewrites the extracted
label; when the configured base domain does not itself start with "www.",
parsing with strip-www enabled coincides with parsing with it disabled, and
in particular "www.sub.www.example.com" parses to "www.sub.www" and
"subdomain.www.example.com" to "subdomain.www". -/
theorem C6_no_label_www_strip :
    (∀ h d, strStarts d "www." = false →
      process_request_subdomain true d h = process_request_subdomain false d h) ∧
    (process_request_subdomain true "example.com" "www.sub.www.example.com").subdomain
      = some "www.sub.www" ∧
    (process_request_subdomain true "example.com" "subdomain.www.example.com").subdomain
      = some "subdomain.www" := by
  refine ⟨fun h d hd => ?_, by decide, by decide⟩
  simp [process_request_subdomain, get_domain, hd]

/-- Claim C6 witness: against the domain "example.com" the strip-www setting
leaves the parse of "www.x.example.com" unchanged. -/
theorem C6_no_label_www_strip_witness :
    strStarts "example.com" "www." = false ∧
    process_request_subdomain true "example.com" "www.x.example.com"
      = process_request_subdomain false "example.com" "www.x.example.com" :=
  ⟨by decide, C6_no_label_www_strip.1 "www.x.example.com" "example.com" (by decide)⟩

/-- Claim C7: every successful reverse call returns a URL assembled by
urljoin from the host built from the effective subdomain — the label prefixed
to the effective domain when present, the bare domain otherwise — whatever
table resolved the path; in particular reverse of "home" on "api" gives
"http://api.example.com/" and on the fallback-served "wildcard" gives
"http://wildcard.example.com/". -/
theorem C7_host_from_subdomain :
    (∀ (cfg : Config) (tables : List (String × List (String × String)))
      (active : Option String) (viewname : String) (sub : Option String)
      (scheme : Option String) (url : String),
      reverse cfg tables active viewname sub scheme = some url →
      ∃ path, url = urljoin (hostFor cfg sub) (some path) scheme
        cfg.defaultScheme) ∧
    reverse testConfig testTables none "home" (some "api") none
      = some "http://api.example.com/" ∧
    reverse testConfig testTables none "home" (some "wildcard") none
      = some "http://wildcard.example.com/" := by
  refine ⟨?_, by decide, by decide⟩
  intro cfg tables active v sub sch url hrev
  simp only [reverse] at hrev
  rcases Option.map_eq_some'.mp hrev with ⟨p, hp, hf⟩
  exact ⟨p, hf.symm⟩

/-- Claim C7 witness: the successful reverse of "home" on "api" is an urljoin
of the host "api.example.com". -/
theorem C7_host_from_subdomain_witness :
    ∃ path, "http://api.example.com/" = urljoin (hostFor testConfig (some "api"))
      (some path) none testConfig.defaultScheme :=
  C7_host_from_subdomain.1 testConfig testTables none "home" (some "api") none
    "http://api.example.com/" (by decide)

/-- Claim C8: a reverse call with no explicit subdomain (and no request
context — the reverse helper takes none) resolves against the registry's
default table; when the route name is absent from that table the call fails
with no URL produced, as for "view", which lives only in the api table. -/
theorem C8_default_table_missing_route :
    (∀ (cfg : Config) (tables : List (String × List (String × String)))
      (active : Option String) (viewname : String) (scheme : Option String),
      resolvePath tables
        ((lookupSub cfg.subdomainUrlconfs none).getD cfg.rootUrlconf) viewname
        = none →
      reverse cfg tables active viewname none scheme = none) ∧
    reverse testConfig testTables none "view" none none = none := by
  refine ⟨?_, by decide⟩
  intro cfg tables active v sch h
  cases hl : lookupSub cfg.subdomainUrlconfs none <;>
    rw [hl] at h <;>
    simp [reverse, djangoReverse, hl, Option.getD] at h ⊢ <;>
    simp [h]

/-- Claim C8 witness: "view" is absent from the default (marketing) table, and
the subdomain-less reverse of "view" fails. -/
theorem C8_default_table_missing_route_witness :
    resolvePath testTables
      ((lookupSub testConfig.subdomainUrlconfs none).getD testConfig.rootUrlconf)
      "view" = none ∧
    reverse testConfig testTables none "view" none none = none :=
  ⟨by decide,
   C8_default_table_missing_route.1 testConfig testTables none "view" none
     (by decide)⟩

/-- Claim C9: a request whose extracted subdomain has no registry entry (the
registry holds no wildcard mechanism) gets no urlconf override attached by the
routing middleware — dispatch falls through to the application default — and
the middleware, a total function, raises no error; concretely the host
"subdomain.example.com" yields no override under the test configuration. -/
theorem C9_unregistered_subdomain_no_override :
    (∀ (cfg : Config) (host : String),
      lookupSub cfg.subdomainUrlconfs
        (process_request_subdomain cfg.removeWww cfg.siteDomain host).subdomain
        = none →
      process_request_urlconf cfg host = none) ∧
    process_request_urlconf testConfig "subdomain.example.com" = none := by
  refine ⟨?_, by decide⟩
  intro cfg host h
  simpa [process_request_urlconf] using h

/-- Claim C9 witness: the subdomain "subdomain" is unregistered and the
middleware attaches no override for "subdomain.example.com". -/
theorem C9_unregistered_subdomain_no_override_witness :
    lookupSub testConfig.subdomainUrlconfs
      (process_request_subdomain testConfig.removeWww testConfig.siteDomain
        "subdomain.example.com").subdomain = none ∧
    process_request_urlconf testConfig "subdomain.example.com" = none :=
  ⟨by decide,
   C9_unregistered_subdomain_no_override.1 testConfig "subdomain.example.com"
     (by decide)⟩

/-- Claim C10: the reverse helper always passes an explicit urlconf (the
registry entry, or ROOT_URLCONF for unregistered subdomains) to path
resolution, so its result is independent of the thread-active urlconf: two
runs differing only in that process state produce the same URL, and the
wildcard reverse of "application" yields
"http://wildcard.example.com/application/" even with the api urlconf active. -/
theorem C10_reverse_ignores_active_urlconf :
    (∀ (cfg : Config) (tables : List (String × List (String × String)))
      (a1 a2 : Option String) (viewname : String) (sub : Option String)
      (scheme : Option String),
      reverse cfg tables a1 viewname sub scheme
        = reverse cfg tables a2 viewname sub scheme) ∧
    reverse testConfig testTables (some (urlModule "api")) "application"
      (some "wildcard") none = some "http://wildcard.example.com/application/" ∧
    reverse testConfig testTables none "application" (some "wildcard") none
      = some "http://wildcard.example.com/application/" := by
  exact ⟨fun cfg tables a1 a2 v sub sch => rfl, by decide, by decide⟩

end Subdomains
